import Mathlib

/-!
Verification development for the learnFlask repository.

The repository registers literal and placeholder routes on a Flask
application (`src/app.py`), has a second tutorial file whose application
object is commented out (`src/introduction.py`), and sketches a WTForms
contact form (`src/forms.py`).  We embed the route dispatcher, the
template renderer, and the top-level module evaluation of the Python
files, and prove the specified properties about them.
-/

namespace LearnFlask

/-- A URL pattern segment: a literal string or a named placeholder
(Flask's `<name>` syntax). -/
inductive Segment
  | lit (s : String)
  | param (name : String)
deriving DecidableEq, Repr

/-- Error raised when a handler declaring a parameter is invoked without
a binding for it (the "missing parameter" condition). -/
inductive HandlerError
  | missingParameter
deriving DecidableEq, Repr

/-- Placeholder bindings extracted from a matched request path. -/
abbrev Bindings := List (String × String)

/-- A template part: literal text or a substituted variable. -/
inductive TPart
  | text (s : String)
  | var (name : String)
deriving DecidableEq, Repr

/-- Render one template part under the given bindings. -/
def renderPart (binds : Bindings) : TPart → String
  | .text s => s
  | .var n => (binds.lookup n).getD ""

/-- Render a template: substitute named variables into the ordered text
layout (Flask's `render_template`). -/
def render_template (t : List TPart) (binds : Bindings) : String :=
  match t with
  | [] => ""
  | p :: ps => renderPart binds p ++ render_template ps binds

/-- Modelled from the spec: `templates/index.html` is part of the
repository but is not under src/.  The spec states that `/` serves
"fixed text or a rendered template with no variables", so the template
is literal text with no variable parts. -/
def index_html : List TPart := [.text "Welcome to the index page."]

/-- `index` from src/app.py: returns `render_template('index.html')`. -/
def index (_binds : Bindings) : Except HandlerError String :=
  .ok (render_template index_html [])

/-- `home` from src/app.py: returns the fixed text. -/
def home (_binds : Bindings) : Except HandlerError String :=
  .ok "Hello, Home!"

/-- `about` from src/app.py: returns the fixed text. -/
def about (_binds : Bindings) : Except HandlerError String :=
  .ok "This is the About page."

/-- `user_profile` from src/app.py: takes the `name` placeholder and
returns the greeting; invoking it without the binding is the
"missing parameter" programming error. -/
def user_profile (binds : Bindings) : Except HandlerError String :=
  match binds.lookup "name" with
  | some name => .ok ("Hello, " ++ name ++ "!")
  | none => .error .missingParameter

/-- `user_profile_template` from src/app.py: renders `index.html`
passing `name=name`. -/
def user_profile_template (binds : Bindings) : Except HandlerError String :=
  match binds.lookup "name" with
  | some name => .ok (render_template index_html [("name", name)])
  | none => .error .missingParameter

/-- A registered route: URL pattern plus handler (HTTP method is
implicitly GET). -/
structure Route where
  pattern : List Segment
  handler : Bindings → Except HandlerError String

/-- The route table of src/app.py, in registration order.  Note the
duplicate registration of `/user/<name>`. -/
def appRoutes : List Route :=
  [ ⟨[], index⟩,
    ⟨[.lit "home"], home⟩,
    ⟨[.lit "about"], about⟩,
    ⟨[.lit "user", .param "name"], user_profile⟩,
    ⟨[.lit "user", .param "name"], user_profile_template⟩ ]

/-- Match a pattern against the segments of a request path.  A literal
segment must match exactly; a placeholder matches any single non-empty
segment and binds it (Werkzeug's default converter). -/
def matchSegs : List Segment → List String → Option Bindings
  | [], [] => some []
  | Segment.lit s :: ps, seg :: segs =>
      if seg = s then matchSegs ps segs else none
  | Segment.param n :: ps, seg :: segs =>
      if seg = "" then none
      else (matchSegs ps segs).map (fun bs => (n, seg) :: bs)
  | _, _ => none

/-- Dispatch: find the first registered pattern matching the path and
invoke its handler with the extracted bindings. -/
def dispatch : List Route → List String → Option (Except HandlerError String)
  | [], _ => none
  | r :: rs, segs =>
      match matchSegs r.pattern segs with
      | some binds => some (r.handler binds)
      | none => dispatch rs segs

/-- An HTTP response: status code and body. -/
structure HttpResponse where
  status : Nat
  body : String
deriving DecidableEq, Repr

/-- The framework's standard not-found body. -/
def notFoundBody : String := "404 Not Found"

/-- The framework's standard server-error body. -/
def serverErrorBody : String := "500 Internal Server Error"

/-- Handle one GET request: 404 when no route matches, 500 when the
matched handler fails, otherwise 200 with the handler's text. -/
def handleRequest (routes : List Route) (segs : List String) : HttpResponse :=
  match dispatch routes segs with
  | none => ⟨404, notFoundBody⟩
  | some (.error _) => ⟨500, serverErrorBody⟩
  | some (.ok body) => ⟨200, body⟩

/-- Split a character list at every slash. -/
def splitOnSlash : List Char → List (List Char)
  | [] => [[]]
  | c :: cs =>
      match splitOnSlash cs with
      | [] => [[c]]
      | seg :: rest => if c = '/' then [] :: seg :: rest else (c :: seg) :: rest

/-- Split a URL path into its segments (the parts between slashes,
after the leading slash). -/
def parsePath (p : String) : List String :=
  if p = "/" then [] else ((splitOnSlash p.data).map String.mk).drop 1

/-- The placeholder names declared by a pattern, in order. -/
def patternParams : List Segment → List String
  | [] => []
  | .lit _ :: ps => patternParams ps
  | .param n :: ps => n :: patternParams ps

/-- Modelled from the spec: no `/greet/<name>` handler appears under
src/; the spec declares the route as "a rendered template receiving
`name` and a fixed ordered list of three string items".  The items'
texts are not given, so three fixed strings stand for them, in their
declared order. -/
def greetItems : List String := ["Item one", "Item two", "Item three"]

/-- Modelled from the spec: the greet template lays out the substituted
`name` followed by the three fixed items in declared order. -/
def greet_html : List TPart :=
  [.text "Hello, ", .var "name", .text "! ",
   .text "Item one", .text " ", .text "Item two", .text " ", .text "Item three"]

/-- Modelled from the spec: the `/greet/<name>` handler renders the
greet template with the extracted `name`. -/
def greet (binds : Bindings) : Except HandlerError String :=
  match binds.lookup "name" with
  | some name => .ok (render_template greet_html [("name", name)])
  | none => .error .missingParameter

/-- Modelled from the spec: the route table carrying the `/greet/<name>`
registration. -/
def greetRoutes : List Route :=
  [⟨[.lit "greet", .param "name"], greet⟩]

/-- Server state: the route table registered at startup.  The spec says
the table is immutable after registration and that a dispatch has no
side effect beyond producing the response body. -/
structure Server where
  routes : List Route

/-- Handle one request against the server state, returning the new
state and the response.  Handlers only produce text, so the state
passed on is the one holding the same route table. -/
def serve (s : Server) (segs : List String) : Server × HttpResponse :=
  (⟨s.routes⟩, handleRequest s.routes segs)

/-- Handle a sequence of requests, threading the server state. -/
def serveAll (s : Server) : List (List String) → Server × List HttpResponse
  | [] => (s, [])
  | req :: reqs =>
      let step := serve s req
      let rest := serveAll step.1 reqs
      (rest.1, step.2 :: rest.2)

/-! ### Top-level evaluation of the Python modules -/

/-- Errors raised while evaluating a Python module's top level. -/
inductive PyError
  | nameError (n : String)
  | importError (n : String)
deriving DecidableEq, Repr

/-- The top-level statements that occur in the repository's files:
`from m import names`, an assignment binding a name, a route-decorated
function definition (the decorator references the application object by
name), and a class definition referencing previously bound names. -/
inductive PyStmt
  | importFrom (module : String) (names : List String)
  | assign (name : String)
  | defRoute (appName : String) (pattern : List Segment) (fname : String)
  | defClass (cname : String) (usedNames : List String)
deriving DecidableEq, Repr

/-- Modelled from the source's import statements: the export surface of
the external packages the repository uses.  `wtforms.validators`
exposes `DataRequired` (capital R), not `Datarequired`. -/
def moduleExports : String → List String
  | "flask" => ["Flask", "render_template"]
  | "dotenv" => ["load_dotenv"]
  | "flask_wtf" => ["FlaskForm"]
  | "wtforms" => ["StringField", "SubmitField"]
  | "wtforms.validators" => ["DataRequired", "Email"]
  | _ => []

/-- Module evaluation state: the bound names and the routes registered
so far (pattern together with the handler function's name). -/
structure ModuleState where
  env : List String
  routes : List (List Segment × String)
deriving DecidableEq, Repr

/-- Evaluate one top-level statement.  An import of a name the module
does not export raises `ImportError`; a decorator referencing an
unbound name raises `NameError`; both abort the module. -/
def evalStmt (st : ModuleState) : PyStmt → Except PyError ModuleState
  | .importFrom m names =>
      match names.find? (fun n => !(moduleExports m).contains n) with
      | some bad => .error (.importError bad)
      | none => .ok ⟨st.env ++ names, st.routes⟩
  | .assign n => .ok ⟨st.env ++ [n], st.routes⟩
  | .defRoute appName pat fname =>
      if st.env.contains appName then
        .ok ⟨st.env ++ [fname], st.routes ++ [(pat, fname)]⟩
      else .error (.nameError appName)
  | .defClass cname used =>
      match used.find? (fun n => !st.env.contains n) with
      | some bad => .error (.nameError bad)
      | none => .ok ⟨st.env ++ [cname], st.routes⟩

/-- Evaluate a module's top-level statements in order, starting from
the empty environment. -/
def evalModule (stmts : List PyStmt) : Except PyError ModuleState :=
  stmts.foldlM evalStmt ⟨[], []⟩

/-- The routes a module's evaluation leaves registered (none when the
evaluation aborts with an error). -/
def registeredRoutes (stmts : List PyStmt) : List (List Segment × String) :=
  match evalModule stmts with
  | .ok st => st.routes
  | .error _ => []

/-- src/introduction.py, statement by statement.  The line
`app = Flask(__name__)` is commented out in the source, so no statement
binds `app` before the decorated definitions reference it. -/
def introduction_py : List PyStmt :=
  [ .importFrom "flask" ["Flask"],
    .importFrom "flask" ["render_template"],
    .defRoute "app" [] "hello_world",
    .defRoute "app" [.lit "home"] "home",
    .defRoute "app" [.lit "about"] "about",
    .defRoute "app" [.lit "user", .param "name"] "user_profile",
    .defRoute "app" [.lit "user", .param "name"] "user_profile_template" ]

/-- src/forms.py, statement by statement: the third import requests
`Datarequired` from `wtforms.validators`; the class definition follows
it. -/
def forms_py : List PyStmt :=
  [ .importFrom "flask_wtf" ["FlaskForm"],
    .importFrom "wtforms" ["StringField", "SubmitField"],
    .importFrom "wtforms.validators" ["Datarequired", "Email"],
    .defClass "ContactForm"
      ["FlaskForm", "StringField", "Datarequired", "Email", "SubmitField"] ]

/-- src/app.py, statement by statement (the `if __name__ == '__main__'`
guard only starts the listener and registers nothing). -/
def app_py : List PyStmt :=
  [ .importFrom "flask" ["Flask"],
    .importFrom "flask" ["render_template"],
    .importFrom "dotenv" ["load_dotenv"],
    .assign "app",
    .defRoute "app" [] "index",
    .defRoute "app" [.lit "home"] "home",
    .defRoute "app" [.lit "about"] "about",
    .defRoute "app" [.lit "user", .param "name"] "user_profile",
    .defRoute "app" [.lit "user", .param "name"] "user_profile_template" ]

/-! ### Helper lemmas -/

/-- If no registered pattern matches, dispatch yields no handler result. -/
theorem dispatch_eq_none_of_no_match (routes : List Route) (segs : List String)
    (h : ∀ r ∈ routes, matchSegs r.pattern segs = none) :
    dispatch routes segs = none := by
  induction routes with
  | nil => rfl
  | cons r rs ih =>
    have hr : matchSegs r.pattern segs = none := h r (List.mem_cons_self r rs)
    rw [dispatch, hr]
    exact ih (fun q hq => h q (List.mem_cons_of_mem r hq))

/-- Soundness of pattern matching: a successful match binds exactly the
declared placeholders, in order, and every bound value is non-empty. -/
theorem matchSegs_sound (ps : List Segment) : ∀ (segs : List String) (binds : Bindings),
    matchSegs ps segs = some binds →
    binds.map Prod.fst = patternParams ps ∧ ∀ p ∈ binds, p.2 ≠ "" := by
  induction ps with
  | nil =>
    intro segs binds h
    cases segs with
    | nil =>
      simp only [matchSegs, Option.some.injEq] at h
      subst h
      simp [patternParams]
    | cons x xs => simp [matchSegs] at h
  | cons p ps ih =>
    intro segs binds h
    cases segs with
    | nil => cases p <;> simp [matchSegs] at h
    | cons x xs =>
      cases p with
      | lit s =>
        simp only [matchSegs] at h
        by_cases hx : x = s
        · rw [if_pos hx] at h
          simpa [patternParams] using ih xs binds h
        · rw [if_neg hx] at h
          exact absurd h (by simp)
      | param n =>
        simp only [matchSegs] at h
        by_cases hx : x = ""
        · rw [if_pos hx] at h
          exact absurd h (by simp)
        · rw [if_neg hx] at h
          rcases Option.map_eq_some'.mp h with ⟨bs, hbs, hb⟩
          subst hb
          rcases ih xs bs hbs with ⟨h1, h2⟩
          refine ⟨by simpa [patternParams] using h1, ?_⟩
          intro q hq
          rcases List.mem_cons.mp hq with hq | hq
          · subst hq; exact hx
          · exact h2 q hq

/-- A match against the `/user/<name>` pattern yields exactly the
binding of `name` to a non-empty segment. -/
theorem user_pattern_match (segs : List String) (binds : Bindings)
    (h : matchSegs [Segment.lit "user", Segment.param "name"] segs = some binds) :
    ∃ v, v ≠ "" ∧ binds = [("name", v)] := by
  rcases matchSegs_sound _ segs binds h with ⟨h1, h2⟩
  simp only [patternParams] at h1
  match binds, h1 with
  | [(a, v)], h1 =>
    have ha : a = "name" := by simpa using h1
    subst ha
    exact ⟨v, h2 ("name", v) (by simp), rfl⟩

/-- No dispatch over the registered table of src/app.py ever invokes a
handler without its placeholder binding: the "missing parameter"
condition is unreachable. -/
theorem dispatch_no_missing (segs : List String) :
    dispatch appRoutes segs ≠ some (.error .missingParameter) := by
  simp only [appRoutes, dispatch]
  cases h1 : matchSegs ([] : List Segment) segs with
  | some b1 => simp [index]
  | none =>
  cases h2 : matchSegs [Segment.lit "home"] segs with
  | some b2 => simp [home]
  | none =>
  cases h3 : matchSegs [Segment.lit "about"] segs with
  | some b3 => simp [about]
  | none =>
  cases h4 : matchSegs [Segment.lit "user", Segment.param "name"] segs with
  | some b4 =>
    rcases user_pattern_match segs b4 h4 with ⟨v, _, hb⟩
    subst hb
    simp [user_profile]
  | none => simp

/-! ### Claim theorems -/

/-- C1: for the placeholder route `/user/<name>` of src/app.py, every
GET whose `name` segment is non-empty succeeds with body
`Hello, <name>!`; in particular GET `/user/John` yields status 200 and
body `Hello, John!`. -/
theorem user_route_greeting (name : String) (h : name ≠ "") :
    handleRequest appRoutes ["user", name] = ⟨200, "Hello, " ++ name ++ "!"⟩ ∧
    handleRequest appRoutes (parsePath "/user/John") = ⟨200, "Hello, John!"⟩ := by
  constructor
  · have hd : dispatch appRoutes ["user", name]
        = some (user_profile [("name", name)]) := by
      simp only [appRoutes, dispatch, matchSegs]
      simp [h]
    rw [handleRequest, hd]
    simp [user_profile, List.lookup]
  · decide

/-- Witness for C1 at `name := "John"`. -/
theorem user_route_greeting_witness :
    handleRequest appRoutes ["user", "John"] = ⟨200, "Hello, " ++ "John" ++ "!"⟩ ∧
    handleRequest appRoutes (parsePath "/user/John") = ⟨200, "Hello, John!"⟩ :=
  user_route_greeting "John" (by decide)

/-- C2: dispatching GET `/greet/<name>` with a non-empty `name` returns
the rendered greet template, whose output contains the substituted
`name` followed by the three fixed string items in their declared
order. -/
theorem greet_route_renders (name : String) (h : name ≠ "") :
    greetItems = ["Item one", "Item two", "Item three"] ∧
    ∃ s0 s1 s2 s3 s4 : String,
      handleRequest greetRoutes ["greet", name]
        = ⟨200, s0 ++ (name ++ (s1 ++ ("Item one" ++
            (s2 ++ ("Item two" ++ (s3 ++ ("Item three" ++ s4)))))))⟩ := by
  refine ⟨rfl, "Hello, ", "! ", " ", " ", "", ?_⟩
  have hd : dispatch greetRoutes ["greet", name] = some (greet [("name", name)]) := by
    simp only [greetRoutes, dispatch, matchSegs]
    simp [h]
  rw [handleRequest, hd]
  simp [greet, List.lookup, render_template, renderPart, greet_html]

/-- Witness for C2 at `name := "World"`. -/
theorem greet_route_renders_witness :
    greetItems = ["Item one", "Item two", "Item three"] ∧
    ∃ s0 s1 s2 s3 s4 : String,
      handleRequest greetRoutes ["greet", "World"]
        = ⟨200, s0 ++ ("World" ++ (s1 ++ ("Item one" ++
            (s2 ++ ("Item two" ++ (s3 ++ ("Item three" ++ s4)))))))⟩ :=
  greet_route_renders "World" (by decide)

/-- C3: every registered literal route returns its fixed text with a
success status: `/home` yields `Hello, Home!`, `/about` yields
`This is the About page.`, and `/` yields the rendered variable-free
index template. -/
theorem literal_routes_fixed_text :
    handleRequest appRoutes (parsePath "/home") = ⟨200, "Hello, Home!"⟩ ∧
    handleRequest appRoutes (parsePath "/about") = ⟨200, "This is the About page."⟩ ∧
    handleRequest appRoutes (parsePath "/") = ⟨200, render_template index_html []⟩ := by
  refine ⟨by decide, by decide, by decide⟩

/-- C4: a request path matched by no registered pattern is answered
with the standard not-found response, no handler being invoked; in
particular GET `/does-not-exist` yields a 404. -/
theorem unmatched_path_not_found (segs : List String)
    (h : ∀ r ∈ appRoutes, matchSegs r.pattern segs = none) :
    handleRequest appRoutes segs = ⟨404, notFoundBody⟩ ∧
    handleRequest appRoutes (parsePath "/does-not-exist") = ⟨404, notFoundBody⟩ := by
  constructor
  · rw [handleRequest, dispatch_eq_none_of_no_match appRoutes segs h]
  · decide

/-- Witness for C4 at the path `/does-not-exist`. -/
theorem unmatched_path_not_found_witness :
    handleRequest appRoutes ["does-not-exist"] = ⟨404, notFoundBody⟩ ∧
    handleRequest appRoutes (parsePath "/does-not-exist") = ⟨404, notFoundBody⟩ :=
  unmatched_path_not_found ["does-not-exist"] (by decide)

/-- C5: GET `/` succeeds with status 200 and its body is the rendering
of the index template, which uses no variables: it renders identically
under every binding environment. -/
theorem root_route_ok :
    handleRequest appRoutes (parsePath "/") = ⟨200, render_template index_html []⟩ ∧
    ∀ binds : Bindings, render_template index_html binds = render_template index_html [] :=
  ⟨by decide, fun _ => rfl⟩

/-- C6: `/user/<name>` is registered twice (fourth and fifth entries of
the table); dispatch invokes the first matching registration, so every
GET `/user/<name>` with non-empty `name` is answered by `user_profile`
with `Hello, <name>!`, not by the later template-rendering handler,
whose output differs. -/
theorem duplicate_route_first_registration_wins (name : String) (h : name ≠ "") :
    appRoutes.map Route.pattern
      = [[], [Segment.lit "home"], [Segment.lit "about"],
         [Segment.lit "user", Segment.param "name"],
         [Segment.lit "user", Segment.param "name"]] ∧
    dispatch appRoutes ["user", name] = some (user_profile [("name", name)]) ∧
    handleRequest appRoutes ["user", name] = ⟨200, "Hello, " ++ name ++ "!"⟩ ∧
    user_profile [("name", "John")] ≠ user_profile_template [("name", "John")] := by
  have hd : dispatch appRoutes ["user", name]
      = some (user_profile [("name", name)]) := by
    simp only [appRoutes, dispatch, matchSegs]
    simp [h]
  refine ⟨rfl, hd, ?_, ?_⟩
  · rw [handleRequest, hd]
    simp [user_profile, List.lookup]
  · simp [user_profile, user_profile_template, List.lookup,
      render_template, renderPart, index_html]

/-- Witness for C6 at `name := "John"`. -/
theorem duplicate_route_first_registration_wins_witness :
    appRoutes.map Route.pattern
      = [[], [Segment.lit "home"], [Segment.lit "about"],
         [Segment.lit "user", Segment.param "name"],
         [Segment.lit "user", Segment.param "name"]] ∧
    dispatch appRoutes ["user", "John"] = some (user_profile [("name", "John")]) ∧
    handleRequest appRoutes ["user", "John"] = ⟨200, "Hello, " ++ "John" ++ "!"⟩ ∧
    user_profile [("name", "John")] ≠ user_profile_template [("name", "John")] :=
  duplicate_route_first_registration_wins "John" (by decide)

/-- C7: a successful pattern match binds exactly the declared
placeholders, each to a non-empty extracted segment, and over the
registered table no handler is ever invoked with a missing placeholder
value: the "missing parameter" failure is unreachable. -/
theorem placeholder_always_bound (pattern : List Segment) (segs : List String)
    (binds : Bindings) (h : matchSegs pattern segs = some binds) :
    (binds.map Prod.fst = patternParams pattern ∧ ∀ p ∈ binds, p.2 ≠ "") ∧
    ∀ reqSegs : List String,
      dispatch appRoutes reqSegs ≠ some (.error .missingParameter) :=
  ⟨matchSegs_sound pattern segs binds h, dispatch_no_missing⟩

/-- Witness for C7 at the `/user/<name>` pattern and path `/user/John`. -/
theorem placeholder_always_bound_witness :
    (([("name", "John")] : Bindings).map Prod.fst
        = patternParams [Segment.lit "user", Segment.param "name"] ∧
      ∀ p ∈ ([("name", "John")] : Bindings), p.2 ≠ "") ∧
    ∀ reqSegs : List String,
      dispatch appRoutes reqSegs ≠ some (.error .missingParameter) :=
  placeholder_always_bound [Segment.lit "user", Segment.param "name"]
    ["user", "John"] [("name", "John")] (by decide)

/-- C8: serving any sequence of requests leaves the server state (the
route table registered at startup) unchanged, and each response depends
only on that fixed table: the only effect of a dispatch is its response
body. -/
theorem dispatch_preserves_routes (s : Server) (reqs : List (List String)) :
    (serveAll s reqs).1 = s ∧
    (serveAll s reqs).2 = reqs.map (handleRequest s.routes) := by
  induction reqs with
  | nil => exact ⟨rfl, rfl⟩
  | cons r rs ih =>
    have h1 : serveAll s (r :: rs)
        = ((serveAll s rs).1, handleRequest s.routes r :: (serveAll s rs).2) := rfl
    rw [h1, List.map_cons]
    exact ⟨ih.1, by rw [ih.2]⟩

/-- C9: evaluating the top level of src/introduction.py fails with a
name-resolution error on `app` (its binding is commented out), so none
of its routes are ever registered. -/
theorem introduction_module_fails_name_resolution :
    evalModule introduction_py = .error (.nameError "app") ∧
    registeredRoutes introduction_py = [] :=
  ⟨rfl, rfl⟩

/-- C10: importing src/forms.py fails with an import error on
`Datarequired` (the validator is spelled `DataRequired`): the first two
imports succeed, and the failing import precedes the `ContactForm`
class definition, which is therefore never evaluated. -/
theorem forms_module_import_fails :
    evalModule forms_py = .error (.importError "Datarequired") ∧
    evalModule (forms_py.take 2)
      = .ok ⟨["FlaskForm", "StringField", "SubmitField"], []⟩ ∧
    forms_py.drop 3 = [PyStmt.defClass "ContactForm"
      ["FlaskForm", "StringField", "Datarequired", "Email", "SubmitField"]] :=
  ⟨rfl, rfl, rfl⟩

end LearnFlask
